import Mathlib

/-!
Shallow embedding of the session/credential lifecycle manager of the
repository `alx-backend-user-data`, together with theorems settling the
frozen claims about its specification.

Modelled modules:
* `0x02-Session_authentication/api/v1/auth/auth.py`            (class `Auth`)
* `0x02-Session_authentication/api/v1/auth/session_auth.py`    (class `SessionAuth`)
* `0x02-Session_authentication/api/v1/auth/session_exp_auth.py`(class `SessionExpAuth`)
* `0x00-personal_data/encrypt_password.py`                     (`hash_password`, `is_valid`)
* `0x03-user_authentication_service/db.py`                     (class `DB`)
* `0x03-user_authentication_service/auth.py`                   (class `Auth`)

Python strings are Lean `String`s (in Lean 4.14 a `String` is a structure
holding a `List Char`, so all operations are kernel-computable), Python
`None`-able arguments are `Option`s with the empty string additionally
treated as falsy where the code tests `if not s`, Python exceptions are an
explicit `Except` with an error enumeration, timestamps (`datetime.now()`)
are integers, and the nondeterministic inputs (`uuid.uuid4()`,
`bcrypt.gensalt()`, the clock) are explicit parameters.
-/

/-- The Python exceptions that the modelled code can raise:
`sqlalchemy.orm.exc.NoResultFound`, `sqlalchemy.exc.InvalidRequestError`,
`ValueError` and `AttributeError`. -/
inductive PyErr where
  | noResultFound
  | invalidRequest
  | valueError
  | attributeError
deriving DecidableEq, Repr

deriving instance DecidableEq for Except

/-! ## Access Policy Evaluator: `Auth.require_auth`
(`0x02-Session_authentication/api/v1/auth/auth.py`, lines 11-29) -/

/-- Python `excluded_path.replace("*", "")`: the replacement of every `*`
by the empty string deletes exactly the `*` characters. -/
def replaceStar (s : String) : String := ⟨s.data.filter (fun c => c ≠ '*')⟩

/-- Python `"*" in excluded_path`: the one-character substring test is a
character membership test. -/
def hasStar (s : String) : Bool := s.data.contains '*'

/-- Python `path.startswith(p)`. -/
def pyStartsWith (path p : String) : Bool := p.data.isPrefixOf path.data

/-- `Auth.require_auth(self, path, excluded_paths)` from
`0x02-Session_authentication/api/v1/auth/auth.py`.

The source returns `True` when `excluded_paths` is `None` or empty (both
are modelled by the empty list); then iterates over `excluded_paths` and,
at the FIRST entry containing `"*"`, returns
`not path.startswith(entry.replace("*", ""))` (`List.find?` is exactly
that first entry); if the loop falls through, it returns
`not (path in excluded_paths or f"{path}/" in excluded_paths)`. -/
def Auth.require_auth (path : String) (excluded_paths : List String) : Bool :=
  if excluded_paths.length = 0 then true
  else
    match excluded_paths.find? (fun e => hasStar e) with
    | some e => !(pyStartsWith path (replaceStar e))
    | none => !(excluded_paths.contains path || excluded_paths.contains (path ++ "/"))

/-! ## Session managers (in-memory dictionary variants)
`SessionAuth` (`session_auth.py`) keeps a Python dict
`user_id_by_session_id` mapping session ids to plain user-id strings;
`SessionExpAuth` (`session_exp_auth.py`) reuses the same dict but stores a
dict `{"user_id": ..., "created_at": ...}` as the value.  A stored value is
therefore either a plain string or such a dict. -/

/-- A value of the `user_id_by_session_id` dictionary: either the plain
user-id string stored by `SessionAuth.create_session`, or the
`{"user_id": u, "created_at": t}` dictionary stored by
`SessionExpAuth.create_session` (`created_at` is an `Option` because the
source guards `session_dictionary.get("created_at")` against absence). -/
inductive SessionVal where
  | vstr (s : String)
  | vdict (user_id : String) (created_at : Option Int)
deriving DecidableEq, Repr

/-- The session map: a Python dict as an insertion-ordered association
list with unique keys. -/
abbrev SessionMap := List (String × SessionVal)

/-- Python `d[k] = v` on a dict: overwrite the existing binding of `k` in
place, or append a fresh binding. -/
def dictSet (m : SessionMap) (k : String) (v : SessionVal) : SessionMap :=
  if m.any (fun p => p.1 == k) then
    m.map (fun p => if p.1 == k then (k, v) else p)
  else
    m ++ [(k, v)]

/-- Python `d.get(k)` on a dict: the bound value, or `None`. -/
def dictGet (m : SessionMap) (k : String) : Option SessionVal :=
  (m.find? (fun p => p.1 == k)).map (fun p => p.2)

/-- Python truthiness of a dict value: the empty string is falsy, every
other string is truthy, and a `{"user_id": ..., "created_at": ...}` dict is
a non-empty dict, hence truthy. -/
def SessionVal.falsy : SessionVal → Bool
  | .vstr s => s == ""
  | .vdict _ _ => false

/-- Python `d["user_id"]` for the value rebound in
`SessionExpAuth.create_session`; in the modelled runs the value is always
the plain string just written by the superclass call. -/
def SessionVal.uidOf : SessionVal → String
  | .vstr s => s
  | .vdict u _ => u

/-- `SessionAuth.create_session(self, user_id)` from `session_auth.py`:
returns `None` when `user_id` is `None`, not a string, or empty
(falsy); otherwise binds a fresh `str(uuid.uuid4())` — the explicit
`fresh_sid` parameter — to `user_id` and returns it.  The result pairs the
returned value with the updated `user_id_by_session_id` map. -/
def SessionAuth.create_session (m : SessionMap) (fresh_sid : String)
    (user_id : Option String) : Option String × SessionMap :=
  match user_id with
  | none => (none, m)
  | some uid =>
    if uid == "" then (none, m)
    else (some fresh_sid, dictSet m fresh_sid (SessionVal.vstr uid))

/-- `SessionAuth.user_id_for_session_id(self, session_id)` from
`session_auth.py`: `None` for a falsy or non-string argument, otherwise
`self.user_id_by_session_id.get(session_id)` (the stored value itself). -/
def SessionAuth.user_id_for_session_id (m : SessionMap)
    (session_id : Option String) : Option SessionVal :=
  match session_id with
  | none => none
  | some sid => if sid == "" then none else dictGet m sid

/-- A character CPython's `int()` strips around the number.  Within the
ASCII range these are exactly the whitespace run `0x09`-`0x0D` and the
space `0x20` (checked against CPython: `int("\t5")`, `int("\x0b5")`,
`int(" 5")` all parse to `5`, while `int("\x1c5")` raises `ValueError`
even though `str.isspace` accepts `0x1c`). -/
def pySpace (c : Char) : Bool :=
  (decide (0x09 ≤ c.toNat) && decide (c.toNat ≤ 0x0D)) || decide (c.toNat = 0x20)

/-- The tail of a CPython `int()` digit group after its first digit:
further decimal digits, with a single underscore allowed only between
two digits (PEP 515), so `"1_0"` parses while `"1_"`, `"_1"` and
`"1__0"` raise `ValueError`. -/
def pyDigitsRest : List Char → Bool
  | [] => true
  | '_' :: c :: rest => c.isDigit && pyDigitsRest rest
  | '_' :: [] => false
  | c :: rest => c.isDigit && pyDigitsRest rest

/-- A full `int()` digit group: at least one decimal digit, then
`pyDigitsRest`. -/
def pyDigitsRun : List Char → Bool
  | [] => false
  | c :: rest => c.isDigit && pyDigitsRest rest

/-- The value of a digit group, underscores removed. -/
def pyDigitsVal (ds : List Char) : Int :=
  (ds.filter (fun c => c ≠ '_')).foldl
    (fun n c => n * 10 + ((c.toNat : Int) - ('0'.toNat : Int))) 0

/-- `SessionExpAuth.__init__(self)` parse model:
`int(getenv("SESSION_DURATION"))` with every exception swallowed by the
caller.  `env` is the environment value (`none` when the variable is
unset, in which case `int(None)` raises `TypeError`).  On an ASCII
string this is exact for CPython's `int()`: surrounding whitespace
(`pySpace`) is stripped, an optional single `+` or `-` sign is followed
directly by a non-empty digit group with underscores between digits
(`pyDigitsRun`), and anything else raises `ValueError` (modelled as
`none`) — so `" +5 "` and `"1_0"` parse to `5` and `10`, while `"abc"`,
`"+"`, `"+ 5"` and `""` do not.  CPython additionally accepts non-ASCII
decimal digits and non-ASCII Unicode whitespace, which this model
rejects; theorems that read the parsed duration therefore carry an
ASCII side condition on the environment value. -/
def pyInt? (s : String) : Option Int :=
  match ((s.data.dropWhile pySpace).reverse.dropWhile pySpace).reverse with
  | [] => none
  | '+' :: ds => if pyDigitsRun ds then some (pyDigitsVal ds) else none
  | '-' :: ds => if pyDigitsRun ds then some (-(pyDigitsVal ds)) else none
  | ds => if pyDigitsRun ds then some (pyDigitsVal ds) else none

/-- The `session_duration` field set by `SessionExpAuth.__init__`:
`0` unless the environment value parses as an integer. -/
def SessionExpAuth.init_duration (env : Option String) : Int :=
  match env with
  | none => 0
  | some s => match pyInt? s with
    | none => 0
    | some n => n

/-- The state of a `SessionExpAuth` instance: the configured
`session_duration` and the shared `user_id_by_session_id` dict. -/
structure SessionExpAuth where
  session_duration : Int
  user_id_by_session_id : SessionMap
deriving DecidableEq, Repr

/-- `SessionExpAuth.create_session(self, user_id)` from
`session_exp_auth.py`: `None` on falsy `user_id`; calls the superclass
`create_session` (binding `fresh_sid` to the plain string), re-reads the
binding with `.get`, checks it is truthy, and finally overwrites the
binding with `{"user_id": user_id, "created_at": datetime.now()}` (`now`
is the clock reading).  The result pairs the returned value with the
updated state. -/
def SessionExpAuth.create_session (st : SessionExpAuth) (fresh_sid : String)
    (now : Int) (user_id : Option String) : Option String × SessionExpAuth :=
  match user_id with
  | none => (none, st)
  | some uid =>
    if uid == "" then (none, st)
    else
      match SessionAuth.create_session st.user_id_by_session_id fresh_sid (some uid) with
      | (none, m1) => (none, { st with user_id_by_session_id := m1 })
      | (some sid, m1) =>
        match dictGet m1 sid with
        | none => (none, { st with user_id_by_session_id := m1 })
        | some v =>
          if v.falsy then (none, { st with user_id_by_session_id := m1 })
          else
            (some sid,
             { st with user_id_by_session_id :=
                 dictSet m1 sid (SessionVal.vdict v.uidOf (some now)) })

/-- `SessionExpAuth.user_id_for_session_id(self, session_id)` from
`session_exp_auth.py`: `None` on falsy `session_id` or an unbound id; on a
bound plain string the source calls `.get` on a `str`, which raises
`AttributeError`; on a bound dict it returns `None` for a falsy
`"user_id"`, returns the user id at once when `session_duration <= 0`,
returns `None` when `"created_at"` is absent or when
`created_at + timedelta(seconds=session_duration) < datetime.now()`, and
the user id otherwise. -/
def SessionExpAuth.user_id_for_session_id (st : SessionExpAuth) (now : Int)
    (session_id : Option String) : Except PyErr (Option String) :=
  match session_id with
  | none => Except.ok none
  | some sid =>
    if sid == "" then Except.ok none
    else
      match dictGet st.user_id_by_session_id sid with
      | none => Except.ok none
      | some (SessionVal.vstr _) => Except.error PyErr.attributeError
      | some (SessionVal.vdict uid created_at) =>
        if uid == "" then Except.ok none
        else if st.session_duration ≤ 0 then Except.ok (some uid)
        else
          match created_at with
          | none => Except.ok none
          | some created =>
            if created + st.session_duration < now then Except.ok none
            else Except.ok (some uid)

/-- `SessionExpAuth.user_id_for_session_id` threaded through the state: the
method body contains no write to `user_id_by_session_id` (no assignment,
`pop` or `del`), so the state component comes back unchanged. -/
def SessionExpAuth.user_id_for_session_id_run (st : SessionExpAuth) (now : Int)
    (session_id : Option String) : Except PyErr (Option String) × SessionExpAuth :=
  (st.user_id_for_session_id now session_id, st)

/-! ## Credential Hasher (`0x00-personal_data/encrypt_password.py`)
The source delegates to the `pyca/bcrypt` library.  The library is
modelled by its observable contract: `hashpw(password, salt)` is a
deterministic function of the password and the salt and returns a byte
sequence that embeds the salt; `gensalt()` is a fresh random salt — an
explicit parameter here; `checkpw(password, hashed)` recomputes with the
embedded salt and compares, and raises `ValueError` ("Invalid salt") when
`hashed` is not well-formed bcrypt output. -/

/-- A byte sequence in a hashed-password position: either well-formed
bcrypt output (a salt and the digest that `hashpw` derived with it), or
any other byte sequence, which bcrypt rejects as a malformed salt. -/
inductive BytesModel where
  | bhash (salt : String) (digest : String)
  | raw (bytes : String)
deriving DecidableEq, Repr

/-- The digest that bcrypt derives from a salt and a password: modelled as
a concrete injective encoding of the pair (the model keeps determinism and
salt/password sensitivity; the real key-derivation arithmetic is opaque). -/
def bcryptDigest (salt password : String) : String := ⟨salt.data ++ '|' :: password.data⟩

/-- `bcrypt.hashpw(password.encode("utf-8"), salt)`. -/
def hashpw (password salt : String) : BytesModel :=
  BytesModel.bhash salt (bcryptDigest salt password)

/-- `bcrypt.checkpw(password.encode("utf-8"), hashed_password)`: recompute
with the embedded salt and compare; `ValueError` on malformed input. -/
def checkpw (password : String) (hashed_password : BytesModel) : Except PyErr Bool :=
  match hashed_password with
  | BytesModel.bhash salt digest => Except.ok (bcryptDigest salt password == digest)
  | BytesModel.raw _ => Except.error PyErr.valueError

/-- `hash_password(password)` from `encrypt_password.py` (and the
identical `_hash_password` of `0x03-user_authentication_service/auth.py`):
`hashpw(password.encode("utf-8"), gensalt())` with the fresh salt as an
explicit parameter. -/
def hash_password (password salt : String) : BytesModel := hashpw password salt

/-- `is_valid(hashed_password, password)` from `encrypt_password.py`:
`return checkpw(password.encode("utf-8"), hashed_password)` with no
exception handling, so a `ValueError` from `checkpw` propagates. -/
def is_valid (hashed_password : BytesModel) (password : String) : Except PyErr Bool :=
  checkpw password hashed_password

/-! ## User Record Store (`0x03-user_authentication_service/db.py`)
The `User` declarative model lives in `user.py`, which is not among the
source files; it is modelled from the spec.  The `users` table is the
ordered list of its rows; `query(User).filter_by(**kwargs).first()` is the
first row satisfying every criterion. -/

/-- Modelled from the spec: the `User` row of `user.py` (absent from the
source tree) — `identity{id: opaque integer, email: unique string}`,
`credential{hashed_password: opaque byte sequence}`, nullable `session_id`
and nullable `reset_token`.  `id` is the autoincrement integer primary
key. -/
structure User where
  id : Nat
  email : String
  hashed_password : BytesModel
  session_id : Option String
  reset_token : Option String
deriving DecidableEq, Repr

/-- A value usable in a `filter_by` / `update` keyword argument: an
integer, a string, a hashed-password byte sequence, or Python `None`
(SQL `NULL`). -/
inductive Val where
  | vInt (n : Nat)
  | vStr (s : String)
  | vBytes (b : BytesModel)
  | vNone
deriving DecidableEq, Repr

/-- `User.__table__.columns.keys()`. -/
def column_names : List String :=
  ["id", "email", "hashed_password", "session_id", "reset_token"]

/-- One `filter_by` criterion `k = v` evaluated on a row: SQL equality, so
a `NULL` column matches only the `None` criterion. -/
def matchesKV (u : User) (k : String) (v : Val) : Bool :=
  if k = "id" then decide (v = Val.vInt u.id)
  else if k = "email" then decide (v = Val.vStr u.email)
  else if k = "hashed_password" then decide (v = Val.vBytes u.hashed_password)
  else if k = "session_id" then
    match u.session_id with
    | none => decide (v = Val.vNone)
    | some s => decide (v = Val.vStr s)
  else if k = "reset_token" then
    match u.reset_token with
    | none => decide (v = Val.vNone)
    | some s => decide (v = Val.vStr s)
  else false

/-- All criteria of a `filter_by(**kwargs)` call evaluated on a row. -/
def matchesAll (u : User) (kwargs : List (String × Val)) : Bool :=
  kwargs.all (fun kv => matchesKV u kv.1 kv.2)

/-- `DB.find_user_by(self, **kwargs)` from `db.py`: raises
`InvalidRequestError` when `kwargs` is empty or some key is not a column
name; otherwise the first matching row, or `NoResultFound` when there is
none. -/
def find_user_by (db : List User) (kwargs : List (String × Val)) : Except PyErr User :=
  if kwargs.isEmpty then Except.error PyErr.invalidRequest
  else if !(kwargs.all (fun kv => column_names.contains kv.1)) then
    Except.error PyErr.invalidRequest
  else
    match db.find? (fun u => matchesAll u kwargs) with
    | some u => Except.ok u
    | none => Except.error PyErr.noResultFound

/-- `setattr(user, k, value)` for one update field; the modelled calls are
always well-typed for their column, other combinations leave the row as it
is. -/
def applyKV (u : User) (k : String) (v : Val) : User :=
  if k = "id" then
    match v with | Val.vInt n => { u with id := n } | _ => u
  else if k = "email" then
    match v with | Val.vStr s => { u with email := s } | _ => u
  else if k = "hashed_password" then
    match v with | Val.vBytes b => { u with hashed_password := b } | _ => u
  else if k = "session_id" then
    match v with
    | Val.vStr s => { u with session_id := some s }
    | Val.vNone => { u with session_id := none }
    | _ => u
  else if k = "reset_token" then
    match v with
    | Val.vStr s => { u with reset_token := some s }
    | Val.vNone => { u with reset_token := none }
    | _ => u
  else u

/-- All `setattr` calls of one `update_user` invocation, in order. -/
def applyKVs (u : User) (kwargs : List (String × Val)) : User :=
  kwargs.foldl (fun acc kv => applyKV acc kv.1 kv.2) u

/-- `DB.update_user(self, user_id, **kwargs)` from `db.py`: finds the row
by `id` (its `NoResultFound` / `InvalidRequestError` propagates), raises
`ValueError` when some key is not a column name, otherwise applies every
field to that row and commits. -/
def update_user (db : List User) (user_id : Nat) (kwargs : List (String × Val)) :
    Except PyErr (List User) :=
  match find_user_by db [("id", Val.vInt user_id)] with
  | Except.error e => Except.error e
  | Except.ok user =>
    if !(kwargs.all (fun kv => column_names.contains kv.1)) then
      Except.error PyErr.valueError
    else
      Except.ok (db.map (fun x => if x.id = user.id then applyKVs x kwargs else x))

/-- `DB.__init__(self)` from `db.py`: `Base.metadata.drop_all` followed by
`Base.metadata.create_all` leaves the `users` table empty, whatever rows
were persisted before. -/
def db_init (_previously_persisted : List User) : List User := []

/-- `DB.add_user(self, email, hashed_password)` from `db.py`: inserts a
fresh row and commits; the autoincrement primary key of the `n+1`-st row
is `n+1`, `session_id` and `reset_token` start `NULL`.  Returns the new
row and the new table. -/
def add_user (db : List User) (email : String) (hashed_password : BytesModel) :
    User × List User :=
  let user : User :=
    { id := db.length + 1, email := email, hashed_password := hashed_password,
      session_id := none, reset_token := none }
  (user, db ++ [user])

/-! ## DB-backed authentication service
(`0x03-user_authentication_service/auth.py`, class `Auth`).  Each method
is a function of the `users` table; mutating methods return the new
table.  `_generate_uuid()` results are explicit parameters. -/

/-- `Auth.create_session(self, email)` from `auth.py`: `None` when no user
has the email (`NoResultFound` is caught); otherwise writes a fresh
session id — the `new_session_id` parameter — onto the user row with
`update_user` and returns it. -/
def Auth.create_session (db : List User) (email : String) (new_session_id : String) :
    Except PyErr (Option String × List User) :=
  match find_user_by db [("email", Val.vStr email)] with
  | Except.error PyErr.noResultFound => Except.ok (none, db)
  | Except.error e => Except.error e
  | Except.ok user =>
    match update_user db user.id [("session_id", Val.vStr new_session_id)] with
    | Except.error e => Except.error e
    | Except.ok db2 => Except.ok (some new_session_id, db2)

/-- `Auth.get_user_from_session_id(self, session_id)` from `auth.py`:
`None` on a `None` argument or when no row has that `session_id`
(`NoResultFound` is caught); the matching user otherwise.  The query
criterion is well-formed, so `InvalidRequestError` cannot arise and the
catch clause models exactly the `NoResultFound` case. -/
def Auth.get_user_from_session_id (db : List User) (session_id : Option String) :
    Option User :=
  match session_id with
  | none => none
  | some sid =>
    match find_user_by db [("session_id", Val.vStr sid)] with
    | Except.error _ => none
    | Except.ok user => some user

/-- `Auth.update_password(self, reset_token, password)` from `auth.py`:
raises `ValueError` when no row holds the reset token (`NoResultFound` is
caught and re-raised as `ValueError`); otherwise hashes the new password
with `_hash_password` (fresh salt as parameter) and updates
`hashed_password` and `reset_token=None` on that row in one `update_user`
call. -/
def Auth.update_password (db : List User) (reset_token : String)
    (password : String) (salt : String) : Except PyErr (List User) :=
  match find_user_by db [("reset_token", Val.vStr reset_token)] with
  | Except.error PyErr.noResultFound => Except.error PyErr.valueError
  | Except.error e => Except.error e
  | Except.ok user =>
    update_user db user.id
      [("hashed_password", Val.vBytes (hash_password password salt)),
       ("reset_token", Val.vNone)]

/-! ## Helper lemmas -/

/-- `List.find?` skips a front segment on which the predicate fails. -/
lemma find?_skip_front {α : Type} (p : α → Bool) (l1 l2 : List α)
    (h : ∀ e ∈ l1, p e = false) : (l1 ++ l2).find? p = l2.find? p := by
  induction l1 with
  | nil => rfl
  | cons x xs ih =>
    have hx : p x = false := h x (List.mem_cons_self x xs)
    simp only [List.cons_append, List.find?_cons, hx]
    exact ih (fun e he => h e (List.mem_cons_of_mem x he))

/-- `List.find?` ignores a back segment on which the predicate fails. -/
lemma find?_skip_back {α : Type} (p : α → Bool) (l1 l2 : List α)
    (h : ∀ e ∈ l2, p e = false) : (l1 ++ l2).find? p = l1.find? p := by
  induction l1 with
  | nil =>
    simp only [List.nil_append, List.find?_nil]
    exact List.find?_eq_none.2 (fun e he => by simp [h e he])
  | cons x xs ih =>
    simp only [List.cons_append, List.find?_cons]
    cases hx : p x <;> simp [ih]

/-- `List.find?` commutes with a map that preserves the predicate. -/
lemma find?_map_congr {α : Type} (f : α → α) (p : α → Bool) (l : List α)
    (h : ∀ x, p (f x) = p x) : (l.map f).find? p = (l.find? p).map f := by
  induction l with
  | nil => rfl
  | cons a l ih =>
    simp only [List.map_cons, List.find?_cons, h a]
    cases hpa : p a <;> simp [ih]

/-- Writing a key into a Python dict makes it readable. -/
lemma dictGet_dictSet_self (m : SessionMap) (k : String) (v : SessionVal) :
    dictGet (dictSet m k v) k = some v := by
  induction m with
  | nil => simp [dictSet, dictGet]
  | cons p m ih =>
    by_cases hp : p.1 = k
    · simp [dictSet, dictGet, hp, List.find?_cons]
    · by_cases hm : m.any (fun q => q.1 == k)
      · simpa [dictSet, dictGet, hp, hm, List.find?_cons] using ih
      · simpa [dictSet, dictGet, hp, hm, List.find?_cons] using ih

/-- Reading a Python dict after a write: the written key returns the new
value, every other key is untouched. -/
lemma dictGet_dictSet (m : SessionMap) (k : String) (v : SessionVal) (k' : String) :
    dictGet (dictSet m k v) k' = if k' = k then some v else dictGet m k' := by
  by_cases h : k' = k
  · subst h
    simp [dictGet_dictSet_self]
  · rw [if_neg h]
    unfold dictSet
    by_cases hm : m.any (fun q => q.1 == k)
    · rw [if_pos hm]
      unfold dictGet
      have hpred : ∀ p : String × SessionVal,
          ((if p.1 == k then (k, v) else p).1 == k') = (p.1 == k') := by
        intro p
        by_cases hp : p.1 = k <;> simp [hp]
      rw [find?_map_congr (fun p => if p.1 == k then (k, v) else p) (fun p => p.1 == k') m hpred]
      cases hf : m.find? (fun p => p.1 == k') with
      | none => simp
      | some q =>
        have hq := List.find?_some hf
        simp only [beq_iff_eq] at hq
        have hqk : ¬ (q.1 == k) = true := by
          simp only [beq_iff_eq]
          rw [hq]; exact h
        simp [hqk, hq, h]
    · rw [if_neg hm]
      unfold dictGet
      rw [find?_skip_back]
      intro e he
      simp only [List.mem_singleton] at he
      subst he
      simp [Ne.symm h]

/-- A `filter_by(id=u.id)` query on a table without duplicate ids finds
exactly the member `u`. -/
lemma matchesAll_id (x u : User) :
    matchesAll x [("id", Val.vInt u.id)] = decide (u.id = x.id) := by
  simp [matchesAll, matchesKV]

/-- On a table whose ids are pairwise distinct, the first row with the id
of a member `u` is `u` itself. -/
lemma find?_by_id_of_nodup (db : List User) (u : User)
    (hids : (db.map User.id).Nodup) (hmem : u ∈ db) :
    db.find? (fun x => matchesAll x [("id", Val.vInt u.id)]) = some u := by
  induction db with
  | nil => cases hmem
  | cons a l ih =>
    simp only [List.map_cons, List.nodup_cons] at hids
    by_cases ha : u.id = a.id
    · have hpa : matchesAll a [("id", Val.vInt u.id)] = true := by
        simp [matchesAll_id, ha]
      simp only [List.find?_cons, hpa]
      rcases List.mem_cons.1 hmem with rfl | hmem'
      · rfl
      · exact absurd (ha ▸ List.mem_map_of_mem User.id hmem') hids.1
    · have hpa : matchesAll a [("id", Val.vInt u.id)] = false := by
        simp [matchesAll_id, ha]
      simp only [List.find?_cons, hpa]
      have hmem' : u ∈ l := by
        rcases List.mem_cons.1 hmem with rfl | hm
        · exact absurd rfl ha
        · exact hm
      exact ih hids.2 hmem'

/-- `find_user_by` on non-empty, recognized criteria is the `find?` over
the table. -/
lemma find_user_by_eq (db : List User) (kwargs : List (String × Val))
    (hne : ¬ kwargs.isEmpty = true)
    (hvalid : kwargs.all (fun kv => column_names.contains kv.1) = true) :
    find_user_by db kwargs
      = match db.find? (fun x => matchesAll x kwargs) with
        | some u => Except.ok u
        | none => Except.error PyErr.noResultFound := by
  unfold find_user_by
  rw [if_neg hne, if_neg (by simp only [hvalid, Bool.not_true]; exact Bool.false_ne_true)]

/-- A `filter_by(email=s)` criterion holds exactly on rows with that
email. -/
lemma matchesAll_email_iff (x : User) (s : String) :
    matchesAll x [("email", Val.vStr s)] = true ↔ s = x.email := by
  simp [matchesAll, matchesKV]

/-- A `filter_by(session_id=s)` criterion holds exactly on rows holding
that session id. -/
lemma matchesAll_session_iff (x : User) (s : String) :
    matchesAll x [("session_id", Val.vStr s)] = true ↔ x.session_id = some s := by
  cases hx : x.session_id <;> simp [matchesAll, matchesKV, hx, eq_comm]

/-- A `filter_by(reset_token=s)` criterion holds exactly on rows holding
that reset token. -/
lemma matchesAll_token_iff (x : User) (s : String) :
    matchesAll x [("reset_token", Val.vStr s)] = true ↔ x.reset_token = some s := by
  cases hx : x.reset_token <;> simp [matchesAll, matchesKV, hx, eq_comm]

/-! ## Claims -/

/-- Claim C1, counterexample: in the in-memory session-map variant
(`SessionAuth`), creating a second session for the same user does NOT
invalidate the first token — `create_session` only adds a new key to
`user_id_by_session_id`, so resolving the first session id still returns
the user id instead of failing with `None`. -/
theorem C1_counterexample :
    (SessionAuth.create_session [] "sid1" (some "alice")).1 = some "sid1" ∧
    (SessionAuth.create_session (SessionAuth.create_session [] "sid1" (some "alice")).2
        "sid2" (some "alice")).1 = some "sid2" ∧
    SessionAuth.user_id_for_session_id
        (SessionAuth.create_session (SessionAuth.create_session [] "sid1" (some "alice")).2
          "sid2" (some "alice")).2 (some "sid1") = some (SessionVal.vstr "alice") := by decide

/-- Claim C1, amended: in the DB-backed variant (`Auth.create_session` of
the user-authentication service) a second `create_session` for the same
user overwrites the single `session_id` column, so resolving the first
session id afterwards fails (returns `none`); in the in-memory
session-map variant (`SessionAuth`) the first binding stays in the dict
and the first session id still resolves to the user id. -/
theorem C1_amended (db : List User) (email s1 s2 : String) (u : User)
    (m : SessionMap) (uid : String)
    (hids : (db.map User.id).Nodup)
    (hfind : db.find? (fun x => matchesAll x [("email", Val.vStr email)]) = some u)
    (hs1db : ∀ x ∈ db, x.session_id ≠ some s1)
    (hne : s1 ≠ s2) (huid : uid ≠ "") (hs1 : s1 ≠ "") :
    (Auth.create_session db email s1
        = Except.ok (some s1,
            db.map (fun x => if x.id = u.id then { x with session_id := some s1 } else x)) ∧
      Auth.create_session
          (db.map (fun x => if x.id = u.id then { x with session_id := some s1 } else x)) email s2
        = Except.ok (some s2,
            (db.map (fun x => if x.id = u.id then { x with session_id := some s1 } else x)).map
              (fun x => if x.id = u.id then { x with session_id := some s2 } else x)) ∧
      Auth.get_user_from_session_id
          ((db.map (fun x => if x.id = u.id then { x with session_id := some s1 } else x)).map
            (fun x => if x.id = u.id then { x with session_id := some s2 } else x))
          (some s1) = none) ∧
    SessionAuth.user_id_for_session_id
        (SessionAuth.create_session
          (SessionAuth.create_session m s1 (some uid)).2 s2 (some uid)).2
        (some s1) = some (SessionVal.vstr uid) := by
  constructor
  · -- DB-backed variant: the second create_session overwrites the session_id column
    have humem : u ∈ db := List.mem_of_find?_eq_some hfind
    have hfu1 : find_user_by db [("email", Val.vStr email)] = Except.ok u := by
      rw [find_user_by_eq db _ (by simp) (by rfl), hfind]
    have hfid1 : find_user_by db [("id", Val.vInt u.id)] = Except.ok u := by
      rw [find_user_by_eq db _ (by simp) (by rfl), find?_by_id_of_nodup db u hids humem]
    have hcs1 : Auth.create_session db email s1
        = Except.ok (some s1,
            db.map (fun x => if x.id = u.id then { x with session_id := some s1 } else x)) := by
      unfold Auth.create_session update_user
      rw [hfu1]
      dsimp only
      rw [hfid1]
      rfl
    have hpres1 : ∀ x : User,
        matchesAll (if x.id = u.id then { x with session_id := some s1 } else x)
            [("email", Val.vStr email)]
          = matchesAll x [("email", Val.vStr email)] := by
      intro x
      by_cases hx : x.id = u.id <;> simp [hx, matchesAll, matchesKV]
    have hfind1 :
        (db.map (fun x => if x.id = u.id then { x with session_id := some s1 } else x)).find?
            (fun x => matchesAll x [("email", Val.vStr email)])
          = some { u with session_id := some s1 } := by
      rw [find?_map_congr _ _ db hpres1, hfind]
      simp
    have hid1 :
        (db.map (fun x => if x.id = u.id then { x with session_id := some s1 } else x)).map User.id
          = db.map User.id := by
      rw [List.map_map]
      exact List.map_congr_left (fun a _ => by by_cases hx : a.id = u.id <;> simp [hx])
    have hids1 : ((db.map (fun x => if x.id = u.id then { x with session_id := some s1 } else x)).map
        User.id).Nodup := by
      rw [hid1]; exact hids
    have humem1 : ({ u with session_id := some s1 } : User)
        ∈ db.map (fun x => if x.id = u.id then { x with session_id := some s1 } else x) := by
      have := List.mem_map_of_mem
        (fun x => if x.id = u.id then { x with session_id := some s1 } else x) humem
      simpa using this
    have hfu2 : find_user_by
        (db.map (fun x => if x.id = u.id then { x with session_id := some s1 } else x))
        [("email", Val.vStr email)] = Except.ok { u with session_id := some s1 } := by
      rw [find_user_by_eq _ _ (by simp) (by rfl), hfind1]
    have hfid2 : find_user_by
        (db.map (fun x => if x.id = u.id then { x with session_id := some s1 } else x))
        [("id", Val.vInt ({ u with session_id := some s1 } : User).id)]
          = Except.ok { u with session_id := some s1 } := by
      rw [find_user_by_eq _
          [("id", Val.vInt ({ u with session_id := some s1 } : User).id)] (by simp) (by rfl),
        find?_by_id_of_nodup _ _ hids1 humem1]
    have hcs2 : Auth.create_session
        (db.map (fun x => if x.id = u.id then { x with session_id := some s1 } else x)) email s2
        = Except.ok (some s2,
            (db.map (fun x => if x.id = u.id then { x with session_id := some s1 } else x)).map
              (fun x => if x.id = u.id then { x with session_id := some s2 } else x)) := by
      unfold Auth.create_session update_user
      rw [hfu2]
      dsimp only
      rw [hfid2]
      rfl
    refine ⟨hcs1, hcs2, ?_⟩
    -- the first session id no longer resolves
    have hnone :
        ((db.map (fun x => if x.id = u.id then { x with session_id := some s1 } else x)).map
            (fun x => if x.id = u.id then { x with session_id := some s2 } else x)).find?
          (fun x => matchesAll x [("session_id", Val.vStr s1)]) = none := by
      refine List.find?_eq_none.2 ?_
      intro x hx
      rcases List.mem_map.1 hx with ⟨y, hy, rfl⟩
      rcases List.mem_map.1 hy with ⟨z, hz, rfl⟩
      by_cases hzid : z.id = u.id
      · simp only [hzid, if_pos, if_true]
        rw [matchesAll_session_iff]
        simp only [Option.some.injEq]
        intro h
        exact hne (h.symm ▸ rfl)
      · simp only [hzid, if_false, if_neg hzid]
        rw [matchesAll_session_iff]
        exact hs1db z hz
    have hfub : find_user_by
        ((db.map (fun x => if x.id = u.id then { x with session_id := some s1 } else x)).map
            (fun x => if x.id = u.id then { x with session_id := some s2 } else x))
        [("session_id", Val.vStr s1)] = Except.error PyErr.noResultFound := by
      rw [find_user_by_eq _ _ (by simp) (by rfl), hnone]
    simp only [Auth.get_user_from_session_id, hfub]
  · -- in-memory variant: the first binding is still in the dict
    simp only [SessionAuth.create_session, SessionAuth.user_id_for_session_id]
    have huid' : (uid == "") = false := by simp [huid]
    have hs1' : (s1 == "") = false := by simp [hs1]
    simp only [huid', Bool.false_eq_true, if_false, hs1']
    rw [dictGet_dictSet _ _ _ s1, if_neg hne, dictGet_dictSet_self]

/-- Claim C1, witness: a one-user table and an empty session dict run
through both variants. -/
theorem C1_witness :
    (Auth.create_session [⟨1, "a@b", BytesModel.raw "h", none, none⟩] "a@b" "sid1"
        = Except.ok (some "sid1", [⟨1, "a@b", BytesModel.raw "h", some "sid1", none⟩]) ∧
      Auth.create_session [⟨1, "a@b", BytesModel.raw "h", some "sid1", none⟩] "a@b" "sid2"
        = Except.ok (some "sid2", [⟨1, "a@b", BytesModel.raw "h", some "sid2", none⟩]) ∧
      Auth.get_user_from_session_id [⟨1, "a@b", BytesModel.raw "h", some "sid2", none⟩]
        (some "sid1") = none) ∧
    SessionAuth.user_id_for_session_id
        (SessionAuth.create_session
          (SessionAuth.create_session [] "sid1" (some "alice")).2 "sid2" (some "alice")).2
        (some "sid1") = some (SessionVal.vstr "alice") :=
  C1_amended [⟨1, "a@b", BytesModel.raw "h", none, none⟩] "a@b" "sid1" "sid2"
    ⟨1, "a@b", BytesModel.raw "h", none, none⟩ [] "alice"
    (by decide) (by decide) (by decide) (by decide) (by decide) (by decide)

/-- Claim C2: reset tokens are single-use.  With a table whose ids are
distinct and in which exactly one user holds reset token `t`,
`Auth.update_password` succeeds once — rewriting exactly that user's
`hashed_password` to the fresh hash of the new password and clearing
`reset_token`, leaving every other row untouched — and a second call with
the same `t` raises `ValueError`; a call with a token no user holds
raises `ValueError` without reaching any update (the lookup fails before
`update_user` is invoked, so no state changes). -/
theorem C2 (db : List User) (t pw1 salt1 pw2 salt2 : String) (u : User)
    (db2 : List User) (t2 : String)
    (hids : (db.map User.id).Nodup)
    (hfind : db.find? (fun x => matchesAll x [("reset_token", Val.vStr t)]) = some u)
    (huniq : ∀ x ∈ db, x.reset_token = some t → x = u)
    (hno : ∀ x ∈ db2, x.reset_token ≠ some t2) :
    (Auth.update_password db t pw1 salt1
        = Except.ok (db.map (fun x => if x.id = u.id then
            { x with hashed_password := hash_password pw1 salt1, reset_token := none }
          else x)) ∧
      Auth.update_password
          (db.map (fun x => if x.id = u.id then
            { x with hashed_password := hash_password pw1 salt1, reset_token := none }
          else x)) t pw2 salt2 = Except.error PyErr.valueError) ∧
    Auth.update_password db2 t2 pw1 salt1 = Except.error PyErr.valueError := by
  have hnoholder : ∀ (db3 : List User) (t3 pw salt : String),
      (∀ x ∈ db3, x.reset_token ≠ some t3) →
      Auth.update_password db3 t3 pw salt = Except.error PyErr.valueError := by
    intro db3 t3 pw salt hno3
    have hnone : db3.find? (fun x => matchesAll x [("reset_token", Val.vStr t3)]) = none := by
      refine List.find?_eq_none.2 ?_
      intro x hx
      rw [matchesAll_token_iff]
      exact hno3 x hx
    unfold Auth.update_password
    rw [find_user_by_eq _ [("reset_token", Val.vStr t3)] (by simp) (by rfl), hnone]
  refine ⟨⟨?_, ?_⟩, hnoholder db2 t2 pw1 salt1 hno⟩
  · have humem : u ∈ db := List.mem_of_find?_eq_some hfind
    have hfu : find_user_by db [("reset_token", Val.vStr t)] = Except.ok u := by
      rw [find_user_by_eq _ [("reset_token", Val.vStr t)] (by simp) (by rfl), hfind]
    have hfid : find_user_by db [("id", Val.vInt u.id)] = Except.ok u := by
      rw [find_user_by_eq _ [("id", Val.vInt u.id)] (by simp) (by rfl),
        find?_by_id_of_nodup db u hids humem]
    unfold Auth.update_password update_user
    rw [hfu]
    dsimp only
    rw [hfid]
    rfl
  · apply hnoholder
    intro x hx
    rcases List.mem_map.1 hx with ⟨y, hy, rfl⟩
    by_cases hyid : y.id = u.id
    · simp [hyid]
    · simp only [hyid, if_false, if_neg hyid]
      intro hcon
      exact hyid (congrArg User.id (huniq y hy hcon))

/-- Claim C2, witness: a one-user table holding token `tok`, and a
disjoint table holding a different token. -/
theorem C2_witness :
    (Auth.update_password [⟨1, "a@b", BytesModel.raw "old", none, some "tok"⟩] "tok" "new1" "s1"
        = Except.ok [⟨1, "a@b", hash_password "new1" "s1", none, none⟩] ∧
      Auth.update_password [⟨1, "a@b", hash_password "new1" "s1", none, none⟩] "tok" "new2" "s2"
        = Except.error PyErr.valueError) ∧
    Auth.update_password [⟨2, "c@d", BytesModel.raw "hp", none, some "other"⟩] "tok" "new1" "s1"
      = Except.error PyErr.valueError :=
  C2 [⟨1, "a@b", BytesModel.raw "old", none, some "tok"⟩] "tok" "new1" "s1" "new2" "s2"
    ⟨1, "a@b", BytesModel.raw "old", none, some "tok"⟩
    [⟨2, "c@d", BytesModel.raw "hp", none, some "other"⟩] "tok"
    (by decide) (by decide) (by decide) (by decide)

/-- Claim C3, counterexample: on a malformed hash input `is_valid` does
not return `false` — it propagates bcrypt's `ValueError` ("Invalid
salt"), so it throws instead of returning a boolean. -/
theorem C3_counterexample :
    is_valid (BytesModel.raw "not-a-bcrypt-hash") "password" = Except.error PyErr.valueError ∧
    is_valid (BytesModel.raw "not-a-bcrypt-hash") "password" ≠ Except.ok false := by decide

/-- Claim C3, amended: on well-formed bcrypt output `is_valid` returns a
boolean — `true` for the hashed password, `false` for any other password
— but on malformed hash input it raises `ValueError` (propagated from
`bcrypt.checkpw`) rather than returning `false`. -/
theorem C3_amended (pw other salt b : String) (hne : pw ≠ other) :
    is_valid (hash_password pw salt) pw = Except.ok true ∧
    is_valid (hash_password pw salt) other = Except.ok false ∧
    is_valid (BytesModel.raw b) other = Except.error PyErr.valueError := by
  refine ⟨?_, ?_, rfl⟩
  · simp [is_valid, hash_password, hashpw, checkpw]
  · simp only [is_valid, hash_password, hashpw, checkpw, Except.ok.injEq]
    rw [beq_eq_false_iff_ne]
    intro h
    apply hne
    have h2 : bcryptDigest salt pw = bcryptDigest salt other := h.symm
    rw [String.ext_iff] at h2
    simp only [bcryptDigest] at h2
    have h3 := List.append_cancel_left h2
    rw [String.ext_iff]
    simpa using h3

/-- Claim C3, witness: concrete passwords and a concrete malformed
byte sequence. -/
theorem C3_witness :
    is_valid (hash_password "pw1" "salt") "pw1" = Except.ok true ∧
    is_valid (hash_password "pw1" "salt") "pw2" = Except.ok false ∧
    is_valid (BytesModel.raw "junk") "pw2" = Except.error PyErr.valueError :=
  C3_amended "pw1" "pw2" "salt" "junk" (by decide)

/-- Claim C4, counterexample: with duration `D = 5` and a session created
at time `0`, the lookup at `now = 5` — the instant `now = created_at + D`
— still succeeds, although the claim says the session is valid only while
`created_at + D > now` and in particular no longer valid at that
instant.  The source expires only when `created_at + duration < now`,
strictly. -/
theorem C4_counterexample :
    (SessionExpAuth.create_session ⟨5, []⟩ "s" 0 (some "u")).2.user_id_for_session_id 5
        (some "s") = Except.ok (some "u") ∧
    ¬ ((0 : Int) + 5 > 5) := by decide

/-- Claim C4, amended: for a session stored with positive configured
duration `D`, `user_id_for_session_id` returns the user exactly while
`created_at + D ≥ now`; at the instant `now = created_at + D` the session
is still valid, and it expires strictly afterwards. -/
theorem C4_amended (duration created now : Int) (m : SessionMap) (sid uid : String)
    (hdur : 0 < duration) (hsid : sid ≠ "") (huid : uid ≠ "")
    (hbound : dictGet m sid = some (SessionVal.vdict uid (some created))) :
    (SessionExpAuth.user_id_for_session_id ⟨duration, m⟩ now (some sid)
        = Except.ok (some uid)) ↔ created + duration ≥ now := by
  have hsid' : (sid == "") = false := by simp [hsid]
  have huid' : (uid == "") = false := by simp [huid]
  have hdur' : ¬ (duration ≤ 0) := by omega
  simp only [SessionExpAuth.user_id_for_session_id, hsid', hbound, huid',
    Bool.false_eq_true, if_false, hdur', if_neg]
  by_cases hexp : created + duration < now
  · simp [hexp]
  · simp [hexp]
    omega

/-- Claim C4, witness: duration `7`, creation time `100`, lookup at
`104`. -/
theorem C4_witness :
    (SessionExpAuth.user_id_for_session_id ⟨7, [("s", SessionVal.vdict "u" (some 100))]⟩ 104
        (some "s") = Except.ok (some "u")) ↔ (100 : Int) + 7 ≥ 104 :=
  C4_amended 7 100 104 [("s", SessionVal.vdict "u" (some 100))] "s" "u"
    (by decide) (by decide) (by decide) (by decide)

/-- Claim C5: a lookup of an expired session (positive duration,
`created_at + duration < now`) returns not-found (`None`) WITHOUT
deleting the entry: the state comes back unchanged and the session map
still contains the binding for that session id. -/
theorem C5 (duration created now : Int) (m : SessionMap) (sid uid : String)
    (hdur : 0 < duration) (hsid : sid ≠ "")
    (hbound : dictGet m sid = some (SessionVal.vdict uid (some created)))
    (hexp : created + duration < now) :
    (SessionExpAuth.user_id_for_session_id_run ⟨duration, m⟩ now (some sid)).1
        = Except.ok none ∧
    (SessionExpAuth.user_id_for_session_id_run ⟨duration, m⟩ now (some sid)).2
        = ⟨duration, m⟩ ∧
    dictGet ((SessionExpAuth.user_id_for_session_id_run ⟨duration, m⟩ now
        (some sid)).2).user_id_by_session_id sid
      = some (SessionVal.vdict uid (some created)) := by
  have hsid' : (sid == "") = false := by simp [hsid]
  have hdur' : ¬ (duration ≤ 0) := by omega
  refine ⟨?_, rfl, hbound⟩
  simp only [SessionExpAuth.user_id_for_session_id_run,
    SessionExpAuth.user_id_for_session_id, hsid', hbound, Bool.false_eq_true, if_false]
  by_cases huid : uid == ""
  · simp [huid]
  · simp [huid, hdur', hexp]

/-- Claim C5, witness: duration `7`, creation time `100`, lookup at
`200`. -/
theorem C5_witness :
    (SessionExpAuth.user_id_for_session_id_run ⟨7, [("s", SessionVal.vdict "u" (some 100))]⟩ 200
        (some "s")).1 = Except.ok none ∧
    (SessionExpAuth.user_id_for_session_id_run ⟨7, [("s", SessionVal.vdict "u" (some 100))]⟩ 200
        (some "s")).2 = ⟨7, [("s", SessionVal.vdict "u" (some 100))]⟩ ∧
    dictGet ((SessionExpAuth.user_id_for_session_id_run ⟨7, [("s", SessionVal.vdict "u" (some 100))]⟩
        200 (some "s")).2).user_id_by_session_id "s"
      = some (SessionVal.vdict "u" (some 100)) :=
  C5 7 100 200 [("s", SessionVal.vdict "u" (some 100))] "s" "u"
    (by decide) (by decide) (by decide) (by decide)

/-- Claim C6, counterexample: on a freshly constructed DB (`db_init`
models `drop_all` + `create_all`), a `find_user_by` call with empty
criteria raises `InvalidRequestError`, not `NoResultFound` — so not
EVERY `find_user_by` call on a fresh instance raises `NoResultFound`. -/
theorem C6_counterexample :
    find_user_by (db_init [⟨1, "a@b", BytesModel.raw "h", none, none⟩]) []
      = Except.error PyErr.invalidRequest ∧
    find_user_by (db_init [⟨1, "a@b", BytesModel.raw "h", none, none⟩]) []
      ≠ Except.error PyErr.noResultFound := by decide

/-- Claim C6, amended: constructing a DB drops and recreates the user
table, so regardless of previously persisted rows, every `find_user_by`
call with non-empty criteria over recognized columns raises
`NoResultFound` — until `add_user` is called, after which a lookup by the
added email returns the new user (criteria with no keys or unknown keys
raise `InvalidRequestError` instead). -/
theorem C6_amended (prev : List User) (kwargs : List (String × Val))
    (email : String) (hp : BytesModel)
    (hne : kwargs ≠ [])
    (hvalid : ∀ kv ∈ kwargs, column_names.contains kv.1 = true) :
    find_user_by (db_init prev) kwargs = Except.error PyErr.noResultFound ∧
    find_user_by (add_user (db_init prev) email hp).2 [("email", Val.vStr email)]
      = Except.ok (add_user (db_init prev) email hp).1 := by
  constructor
  · rw [find_user_by_eq _ kwargs (by simpa using hne) (List.all_eq_true.2 hvalid)]
    rfl
  · rw [find_user_by_eq _ [("email", Val.vStr email)] (by simp) (by rfl)]
    have hm : matchesAll (add_user (db_init prev) email hp).1
        [("email", Val.vStr email)] = true :=
      (matchesAll_email_iff _ _).2 rfl
    have hf2 : (add_user (db_init prev) email hp).2.find?
        (fun x => matchesAll x [("email", Val.vStr email)])
          = some (add_user (db_init prev) email hp).1 := by
      show ([(add_user (db_init prev) email hp).1].find?
        (fun x => matchesAll x [("email", Val.vStr email)]))
          = some (add_user (db_init prev) email hp).1
      exact List.find?_cons_of_pos _ hm
    rw [hf2]

/-- Claim C6, witness: a previously persisted row is gone after
construction — a lookup by its own session id misses — and an added user
is found again by email. -/
theorem C6_witness :
    find_user_by (db_init [⟨5, "x@y", BytesModel.raw "p", some "sid", some "tok"⟩])
        [("session_id", Val.vStr "sid")] = Except.error PyErr.noResultFound ∧
    find_user_by (add_user (db_init [⟨5, "x@y", BytesModel.raw "p", some "sid", some "tok"⟩])
        "x@y" (BytesModel.raw "p")).2 [("email", Val.vStr "x@y")]
      = Except.ok (add_user (db_init [⟨5, "x@y", BytesModel.raw "p", some "sid", some "tok"⟩])
        "x@y" (BytesModel.raw "p")).1 :=
  C6_amended [⟨5, "x@y", BytesModel.raw "p", some "sid", some "tok"⟩]
    [("session_id", Val.vStr "sid")] "x@y" (BytesModel.raw "p") (by decide) (by decide)

/-- Claim C7: when the exemption list contains a wildcard entry, the
decision is made solely by the FIRST wildcard entry in list order —
`require_auth` returns `false` exactly when the path starts with that
entry's marker-stripped text, and the result does not depend on the
entries before it (all non-wildcard) nor on any entry after it, wildcard
or exact. -/
theorem C7 (path : String) (pre post : List String) (w : String)
    (hpre : ∀ e ∈ pre, hasStar e = false) (hw : hasStar w = true) :
    Auth.require_auth path (pre ++ w :: post) = !(pyStartsWith path (replaceStar w)) := by
  have hfind : (pre ++ w :: post).find? (fun e => hasStar e) = some w := by
    rw [find?_skip_front (fun e => hasStar e) pre (w :: post) hpre]
    simp [List.find?_cons, hw]
  have hlen : ¬ ((pre ++ w :: post).length = 0) := by simp
  simp [Auth.require_auth, hlen, hfind]

/-- Claim C7, witness: the first wildcard entry `"/api/v1/*"` decides,
even though a later exact entry matches the path. -/
theorem C7_witness :
    Auth.require_auth "/api/v1/users" (["/login"] ++ "/api/v1/*" :: ["/api/*", "/api/v1/users"])
      = !(pyStartsWith "/api/v1/users" (replaceStar "/api/v1/*")) :=
  C7 "/api/v1/users" ["/login"] ["/api/*", "/api/v1/users"] "/api/v1/*" (by decide) (by decide)

/-- Claim C8, counterexample: the trailing-slash tolerance goes the other
way round.  For exemption `"/a"` the path `"/a/"` — the exemption with
one trailing slash appended — is NOT exempt: `require_auth` returns
`true`, while the claim says it returns `false`. -/
theorem C8_counterexample :
    "/a/" = "/a" ++ "/" ∧ Auth.require_auth "/a/" ["/a"] = true := by decide

/-- Claim C8, amended: for a non-empty exemption list without wildcard
entries, `require_auth` returns `false` exactly when the path itself is
in the list or the path WITH one trailing slash appended is in the list
(so for exemption `"/a/"` both `"/a/"` and `"/a"` are exempt, but for
exemption `"/a"` the path `"/a/"` is not). -/
theorem C8_amended (path : String) (l : List String) (hne : l ≠ [])
    (hnw : ∀ e ∈ l, hasStar e = false) :
    (Auth.require_auth path l = false ↔ (path ∈ l ∨ path ++ "/" ∈ l)) := by
  have hfind : l.find? (fun e => hasStar e) = none :=
    List.find?_eq_none.2 (fun e he => by simp [hnw e he])
  have hlen : ¬ (l.length = 0) := by simpa [List.length_eq_zero] using hne
  simp [Auth.require_auth, hlen, hfind, List.contains]
  tauto

/-- Claim C8, witness: the list `["/b", "/a/"]` exempts the path `"/a"`
because `"/a" ++ "/"` is an exemption. -/
theorem C8_witness :
    (Auth.require_auth "/a" ["/b", "/a/"] = false ↔
      ("/a" ∈ ["/b", "/a/"] ∨ "/a" ++ "/" ∈ ["/b", "/a/"])) :=
  C8_amended "/a" ["/b", "/a/"] (by decide) (by decide)

/-- Claim C9: `requiresAuth("/api/v1/status", ["/api/v1/status/"])`
returns `false` — a path is exempt when the list contains the path with a
single trailing slash appended. -/
theorem C9 : Auth.require_auth "/api/v1/status" ["/api/v1/status/"] = false := by decide

/-- Claim C10: when the `SESSION_DURATION` environment value is unset,
unparsable, or parses to a non-positive integer, the duration configured
at construction is non-positive and sessions never expire: for every
stored session and EVERY value of `now`, the lookup returns the user.
The environment value is restricted to ASCII (`_hascii`), where the
`pyInt?` model of CPython's `int()` is exact, so "unparsable or
non-positive" (`henv`) means exactly what it means to the program. -/
theorem C10 (env : Option String) (m : SessionMap) (sid uid : String)
    (created_at : Option Int) (now : Int)
    (_hascii : ∀ c ∈ (env.getD "").data, c.toNat < 128)
    (henv : ∀ n : Int, env.bind pyInt? = some n → n ≤ 0)
    (hsid : sid ≠ "") (huid : uid ≠ "")
    (hbound : dictGet m sid = some (SessionVal.vdict uid created_at)) :
    SessionExpAuth.user_id_for_session_id ⟨SessionExpAuth.init_duration env, m⟩ now
      (some sid) = Except.ok (some uid) := by
  have hdur : SessionExpAuth.init_duration env ≤ 0 := by
    cases env with
    | none => simp [SessionExpAuth.init_duration]
    | some s =>
      cases hp : pyInt? s with
      | none => simp [SessionExpAuth.init_duration, hp]
      | some n =>
        have := henv n (by simp [hp])
        simpa [SessionExpAuth.init_duration, hp] using this
  have hsid' : (sid == "") = false := by simp [hsid]
  have huid' : (uid == "") = false := by simp [huid]
  simp [SessionExpAuth.user_id_for_session_id, hsid', hbound, huid', hdur]

/-- Claim C10, witness: an unparsable environment value and a lookup
far in the future still resolve the session. -/
theorem C10_witness :
    SessionExpAuth.user_id_for_session_id
        ⟨SessionExpAuth.init_duration (some "abc"), [("s", SessionVal.vdict "u" (some 0))]⟩
        1000000 (some "s") = Except.ok (some "u") :=
  C10 (some "abc") [("s", SessionVal.vdict "u" (some 0))] "s" "u" (some 0) 1000000
    (by decide)
    (fun n h => by
      rw [show (some "abc").bind pyInt? = (none : Option Int) by decide] at h
      cases h)
    (by decide) (by decide) (by decide)
